import Mathlib

/-!
Verification development for the two numeric engines of the repository:
the sales/order forecaster (src/utils/forecast.ts) and the price optimizer
(src/utils/priceOptimization.ts).

Modelling conventions (shallow embedding):
- JavaScript numbers are modelled as exact rationals.  A computation whose
  JavaScript value would be non-finite (NaN or an infinity, always produced
  here by a division whose denominator is zero) is modelled as `none` of
  the type `JsNum := Option Rat`; arithmetic on `JsNum` propagates `none`
  exactly as NaN propagates through JavaScript arithmetic, and comparisons
  against `none` are false exactly as every NaN comparison is false.
- `Math.round x` is `floor (x + 1/2)`, which is the JavaScript semantics
  of rounding half toward positive infinity.
- Timestamps and calendar dates are modelled as integer epoch days
  (day 0 = 1970-01-01, a Thursday, so `getDay d = (d + 4) mod 7`); the
  metric histories handled by the application are day-granular.
  `getMonth` needs full Gregorian calendar arithmetic, none of which any
  verified property depends on, so it is abstracted as a parameter
  `month : Int -> Fin 12`; theorems quantify over it.
- `Math.sqrt` is irrational-valued and is abstracted as a parameter
  `sqrtf : Rat -> Rat`, applied only to nonnegative arguments (a negative
  argument, which would be NaN in JavaScript, is mapped to `none` by
  `jsSqrt`).  Theorems quantify over `sqrtf`, assuming only properties the
  real square root has (nonnegativity on nonnegative inputs), so they hold
  in particular for the real interpretation.
-/

/-- JavaScript finite number (rational); `none` models NaN / infinity. -/
abbrev JsNum := Option ℚ

/-- Math.round: floor (x + 1/2), JavaScript rounds half up. -/
def jsRound (q : ℚ) : ℤ := ⌊q + 1/2⌋

def jsAdd : JsNum → JsNum → JsNum
  | some a, some b => some (a + b)
  | _, _ => none

def jsMul : JsNum → JsNum → JsNum
  | some a, some b => some (a * b)
  | _, _ => none

/-- Division; a zero denominator yields a non-finite value in JavaScript. -/
def jsDiv : JsNum → JsNum → JsNum
  | some a, some b => if b = 0 then none else some (a / b)
  | _, _ => none

/-- Math.sqrt with the value abstracted by `sqrtf`; negative input is NaN. -/
def jsSqrt (sqrtf : ℚ → ℚ) (q : ℚ) : JsNum :=
  if q < 0 then none else some (sqrtf q)

/-- Array.prototype.reduce with no initial value: throws on an empty array,
hence `none` on `[]`; otherwise folds addition from the first element. -/
def reduce1 : List ℚ → Option ℚ
  | [] => none
  | a :: t => some (t.foldl (· + ·) a)

/-- Sequential loop collecting Option results: the whole run fails if any
iteration fails (used for the forecast generation loop). -/
def optionTraverse {α β : Type} (f : α → Option β) : List α → Option (List β)
  | [] => some []
  | a :: t => do
    let b ← f a
    let bs ← optionTraverse f t
    some (b :: bs)

/-- Stable insertion (strictly-smaller elements pass; ties keep order),
used to model the stable ascending JavaScript Array.prototype.sort. -/
def insertLt {α : Type} (lt : α → α → Bool) (a : α) : List α → List α
  | [] => [a]
  | b :: t => if lt a b then a :: b :: t else b :: insertLt lt a t

/-- Stable sort by the comparator `lt` (strict order), modelling the
ascending numeric JavaScript sort `(a, b) => key a - key b`. -/
def sortByLt {α : Type} (lt : α → α → Bool) (l : List α) : List α :=
  l.foldr (insertLt lt) []

/-! # Price optimization engine (src/utils/priceOptimization.ts) -/

/-- One (price, quantity, timestamp) sales observation. -/
structure SalesData where
  price : ℚ
  quantity : ℚ
  timestamp : ℤ
deriving DecidableEq

inductive Goal
  | profit
  | sales
  | inventory
deriving DecidableEq

/-- The four qualitative elasticity buckets of interpretElasticity. -/
inductive ElasticityBucket
  | inelastic
  | moderatelyElastic
  | elastic
  | highlyElastic
deriving DecidableEq

/-- interpretElasticity: threshold buckets; a NaN elasticity fails every
comparison in the source and falls through to the last bucket. -/
def interpretElasticity : JsNum → ElasticityBucket
  | none => .highlyElastic
  | some e =>
    if e < 1/2 then .inelastic
    else if e < 1 then .moderatelyElastic
    else if e < 2 then .elastic
    else .highlyElastic

/-- calculatePriceElasticity from src/utils/priceOptimization.ts.
Fewer than 2 observations returns the literal -1 of the source
(`return -1; // Default elastic demand`).  Guards marked `none` are the
divisions that are non-finite in JavaScript. -/
def calculatePriceElasticity (salesData : List SalesData) : JsNum :=
  if salesData.length < 2 then some (-1)
  else
    let sortedByPrice := sortByLt (fun a b => a.price < b.price) salesData
    let p1 := (sortedByPrice.getD 0 ⟨0, 0, 0⟩).price
    let p2 := (sortedByPrice.getD (sortedByPrice.length - 1) ⟨0, 0, 0⟩).price
    let g1 := salesData.filter (fun d => d.price = p1)
    let g2 := salesData.filter (fun d => d.price = p2)
    if g1.length = 0 ∨ g2.length = 0 then none
    else
      let q1 := (g1.map (·.quantity)).sum / g1.length
      let q2 := (g2.map (·.quantity)).sum / g2.length
      if p1 = 0 then none
      else
        let percentPriceChange := (p2 - p1) / p1
        if q1 = 0 then none
        else
          let percentQuantityChange := (q2 - q1) / q1
          if percentPriceChange = 0 then none
          else some |percentQuantityChange / percentPriceChange|

/-- calculateSeasonalityFactor: weekend uplift by day of week
(0 = Sunday, 5 = Friday, 6 = Saturday). -/
def calculateSeasonalityFactor (dayOfWeek : ℤ) : ℚ :=
  if dayOfWeek = 0 then 11/10
  else if dayOfWeek = 5 ∨ dayOfWeek = 6 then 13/10
  else 9/10

/-- getDay of an epoch-day date (1970-01-01 was a Thursday). -/
def dowOf (d : ℤ) : ℤ := (d + 4) % 7

/-- calculateTimePressureFactor: linear interpolation from 1.5 at a
7-day-or-shorter campaign down to 1.0 at a 30-day-or-longer campaign. -/
def calculateTimePressureFactor (campaignDays : ℤ) : ℚ :=
  if campaignDays ≤ 7 then 3/2
  else if 30 ≤ campaignDays then 1
  else 3/2 - ((1/2) * (campaignDays - 7) / 23)

/-- Modelled from the spec: the npm library ml-regression (not part of this
repository) fits the ordinary-least-squares line of §4.3, with
slope = (n·Σxy − Σx·Σy) / (n·Σx² − (Σx)²) and
intercept = Σy/n − slope·Σx/n; a zero denominator (constant x, or fewer
than two points) makes both NaN, modelled as `none`. -/
def simpleLinearRegression (x y : List ℚ) : Option (ℚ × ℚ) :=
  let n : ℚ := x.length
  let sumX := x.sum
  let sumY := y.sum
  let sumXY := ((x.zip y).map (fun p => p.1 * p.2)).sum
  let sumX2 := (x.map (fun v => v * v)).sum
  let den := n * sumX2 - sumX * sumX
  if den = 0 then none
  else
    let slope := (n * sumXY - sumX * sumY) / den
    some (slope, sumY / n - slope * (sumX / n))

/-- predict of the fitted line. -/
def predict (m : ℚ × ℚ) (t : ℚ) : ℚ := m.1 * t + m.2

/-- Number(e.toFixed(2)) on a finite value: two-decimal rounding. -/
def jsToFixed2 (e : JsNum) : JsNum :=
  e.map (fun v => ((jsRound (v * 100) : ℤ) : ℚ) / 100)

/-- Campaign duration of optimizePrice: differenceInDays(end, start) + 1
when a campaign period is supplied, else the default 1. -/
def campaignDaysOf : Option (ℤ × ℤ) → ℤ
  | none => 1
  | some (s, e) => e - s + 1

/-- Per-day seasonality multipliers of optimizePrice across the campaign;
Array.from of a non-positive length is empty, matching toNat. -/
def seasonalityFactorsOf : Option (ℤ × ℤ) → List ℚ
  | none => [1]
  | some (s, e) => (List.range (e - s + 1).toNat).map
      (fun (i : ℕ) => calculateSeasonalityFactor (dowOf (s + (i : ℤ))))

/-- Time pressure multiplier of optimizePrice, 1 without a campaign. -/
def timePressureFactorOf (camp : Option (ℤ × ℤ)) : ℚ :=
  match camp with
  | none => 1
  | some _ => calculateTimePressureFactor (campaignDaysOf camp)

/-- Result record of optimizePrice.  Fields that can be NaN in JavaScript
are Option-valued. -/
structure OptimizationResult where
  optimalDiscount : Option ℤ
  optimalPrice : ℤ
  originalPrice : ℤ
  expectedRevenue : Option ℤ
  expectedProfit : Option ℤ
  dailyRevenue : Option ℤ
  dailyProfit : Option ℤ
  campaignDays : ℤ
  confidence : Option ℤ
  expectedQuantityDaily : Option ℤ
  expectedQuantityTotal : Option ℤ
  elasticityValue : JsNum
  elasticityInterpretation : ElasticityBucket
deriving DecidableEq

/-- Accumulator of the price-point scan of optimizePrice. -/
structure ScanState where
  maxObjectiveValue : ℚ
  optimalPrice : ℚ
  optimalDailyQuantity : JsNum
  optimalTotalQuantity : JsNum
deriving DecidableEq

/-- Quantities and objective value of one candidate price of optimizePrice:
base quantity from the demand regression (floored at 0 after rounding),
campaign total with per-day seasonality, daily quantity, and the
goal-selected objective.  Returns (objective, daily, total). -/
def evalCandidate (regression : Option (ℚ × ℚ)) (seasonalityFactors : List ℚ)
    (campaignDays : ℤ) (goal : Goal) (cost avgDailyQuantity timePressureFactor : ℚ)
    (price : ℚ) : JsNum × JsNum × JsNum :=
  let baseQuantity : JsNum := regression.map (fun m => ((max 0 (jsRound (predict m price)) : ℤ) : ℚ))
  let totalQuantity : JsNum :=
    (seasonalityFactors.foldl (fun s f => jsAdd s (jsMul baseQuantity (some f))) (some 0)).map
      (fun q => ((jsRound q : ℤ) : ℚ))
  let dailyQuantity : JsNum :=
    (jsDiv totalQuantity (some (campaignDays : ℚ))).map (fun q => ((jsRound q : ℤ) : ℚ))
  let revenue := jsMul (some price) totalQuantity
  let profit := jsMul (some (price - cost)) totalQuantity
  let objectiveValue : JsNum :=
    match goal with
    | .profit => profit
    | .sales => revenue
    | .inventory =>
      let profitMargin := jsDiv (some (price - cost)) (some price)
      let quantityImprovement := jsDiv dailyQuantity (some avgDailyQuantity)
      jsMul (jsAdd (jsMul (jsMul quantityImprovement (some (3/5))) (some timePressureFactor))
                   (jsMul profitMargin (some (2/5))))
            totalQuantity
  (objectiveValue, dailyQuantity, totalQuantity)

/-- One step of the scan: `if (objectiveValue > maxObjectiveValue)`; a NaN
objective fails the comparison and leaves the state unchanged. -/
def scanStep (regression : Option (ℚ × ℚ)) (seasonalityFactors : List ℚ)
    (campaignDays : ℤ) (goal : Goal) (cost avgDailyQuantity timePressureFactor : ℚ)
    (st : ScanState) (price : ℚ) : ScanState :=
  let r := evalCandidate regression seasonalityFactors campaignDays goal cost
    avgDailyQuantity timePressureFactor price
  match r.1 with
  | none => st
  | some v => if st.maxObjectiveValue < v then ⟨v, price, r.2.1, r.2.2⟩ else st

/-- optimizePrice from src/utils/priceOptimization.ts.  The single point of
the function that can throw is `y.reduce((a, b) => a + b)` (mean quantity)
on an empty history, hence the one top-level Option bind `reduce1`:
the whole call is `none` exactly on empty `salesData`. -/
def optimizePrice (currentPrice cost : ℚ) (salesData : List SalesData)
    (goal : Goal) (minDiscount maxDiscount : ℚ)
    (campaignPeriod : Option (ℤ × ℤ)) : Option OptimizationResult :=
  let elasticity := calculatePriceElasticity salesData
  let minPrice := currentPrice * (1 - maxDiscount / 100)
  let maxPrice := currentPrice * (1 - minDiscount / 100)
  let pricePoints : List ℚ :=
    (List.range 50).map (fun (i : ℕ) =>
      ((jsRound (minPrice + (i : ℚ) * (maxPrice - minPrice) / 49) : ℤ) : ℚ))
  let x := salesData.map (·.price)
  let y := salesData.map (·.quantity)
  let regression := simpleLinearRegression x y
  do
  let ySum ← reduce1 y
  let meanY := ySum / (y.length : ℚ)
  let ssRes : JsNum := regression.map (fun m =>
    (List.zipWith (fun actual p => (actual - p) ^ 2) y (x.map (predict m))).sum)
  let ssTot : ℚ := (y.map (fun actual => (actual - meanY) ^ 2)).sum
  let rSquared : JsNum := if ssTot = 0 then none else ssRes.map (fun r => 1 - r / ssTot)
  let campaignDays : ℤ := campaignDaysOf campaignPeriod
  let seasonalityFactors : List ℚ := seasonalityFactorsOf campaignPeriod
  let timePressureFactor : ℚ := timePressureFactorOf campaignPeriod
  let avgDailyQuantity := y.sum / (y.length : ℚ)
  let st := pricePoints.foldl
    (scanStep regression seasonalityFactors campaignDays goal cost avgDailyQuantity timePressureFactor)
    ⟨0, currentPrice, some 0, some 0⟩
  let optimalPrice := st.optimalPrice
  let discountPercentage : JsNum :=
    if currentPrice = 0 then none
    else some (((currentPrice - optimalPrice) / currentPrice) * 100)
  let baseQuantity : JsNum := regression.map (fun m => ((max 0 (jsRound (predict m optimalPrice)) : ℤ) : ℚ))
  let totalQuantity : JsNum :=
    (seasonalityFactors.foldl (fun s f => jsAdd s (jsMul baseQuantity (some f))) (some 0)).map
      (fun q => ((jsRound q : ℤ) : ℚ))
  let dailyRevenue : Option ℤ :=
    (jsDiv (jsMul (some optimalPrice) totalQuantity) (some (campaignDays : ℚ))).map jsRound
  let dailyProfit : Option ℤ :=
    (jsDiv (jsMul (some (optimalPrice - cost)) totalQuantity) (some (campaignDays : ℚ))).map jsRound
  let campaignRevenue : JsNum := dailyRevenue.map (fun d => ((d * campaignDays : ℤ) : ℚ))
  let campaignProfit : JsNum := dailyProfit.map (fun d => ((d * campaignDays : ℤ) : ℚ))
  some
    { optimalDiscount := discountPercentage.map jsRound
      optimalPrice := jsRound optimalPrice
      originalPrice := jsRound currentPrice
      expectedRevenue := campaignRevenue.map jsRound
      expectedProfit := campaignProfit.map jsRound
      dailyRevenue := dailyRevenue.map (fun d => jsRound ((d : ℤ) : ℚ))
      dailyProfit := dailyProfit.map (fun d => jsRound ((d : ℤ) : ℚ))
      campaignDays := campaignDays
      confidence := rSquared.map (fun r => jsRound (r * 100))
      expectedQuantityDaily := st.optimalDailyQuantity.map jsRound
      expectedQuantityTotal := st.optimalTotalQuantity.map jsRound
      elasticityValue := jsToFixed2 elasticity
      elasticityInterpretation := interpretElasticity elasticity }

/-! # Forecast engine (src/utils/forecast.ts) -/

/-- One historical observation: day-granular timestamp plus the sales and
orders metrics (`d.metrics.sales || 0` is the identity on numbers). -/
structure Metrics where
  timestamp : ℤ
  sales : ℚ
  orders : ℚ
deriving DecidableEq

/-- One produced forecast point; the date is its epoch day. -/
structure ForecastResult where
  timestamp : ℤ
  sales : ℤ
  orders : ℤ
  salesLower : ℤ
  salesUpper : ℤ
  ordersLower : ℤ
  ordersUpper : ℤ
  isForecast : Bool
deriving DecidableEq

/-- Result of generateSalesForecast. -/
structure ForecastOutput where
  forecastData : List ForecastResult
  confidence : ℤ
deriving DecidableEq

inductive ForecastRange
  | d7
  | d14
  | m1
  | m3
  | m6
deriving DecidableEq

/-- getDaysForRange from src/utils/forecast.ts. -/
def getDaysForRange : ForecastRange → ℕ
  | .d7 => 7
  | .d14 => 14
  | .m1 => 30
  | .m3 => 90
  | .m6 => 180

/-- handleOutliers from src/utils/forecast.ts: IQR outlier repair.  Indexing
`sorted[floor(n * 0.25)]` and `sorted[floor(n * 0.75)]` is Nat division
(both 0.25 and 0.75 are exact binary floats); `Math.max(0, index - 3)` is
the truncated Nat subtraction; `slice(start, stop)` is drop/take. -/
def handleOutliers (data : List ℚ) : List ℚ :=
  if data.length < 4 then data
  else
    let sorted := sortByLt (fun a b => a < b) data
    let q1 := sorted.getD (data.length / 4) 0
    let q3 := sorted.getD (3 * data.length / 4) 0
    let iqr := q3 - q1
    let lowerBound := q1 - (3/2) * iqr
    let upperBound := q3 + (3/2) * iqr
    data.enum.map (fun p =>
      if p.2 < lowerBound ∨ upperBound < p.2 then
        let start := p.1 - 3
        let stop := min data.length (p.1 + 4)
        let window := ((data.drop start).take (stop - start)).filter
          (fun v => lowerBound ≤ v ∧ v ≤ upperBound)
        if window.length ≠ 0 then window.sum / (window.length : ℚ) else p.2
      else p.2)

/-- Day-of-week bucket index (0..6) of an epoch day, as a Nat. -/
def dowIdx (d : ℤ) : ℕ := (dowOf d).toNat

/-- Seasonality factors; each factor is a JsNum because a zero overall
average makes the factor NaN in JavaScript. -/
structure Seasonality where
  daily : List JsNum
  weekly : List JsNum
  monthly : List JsNum
deriving DecidableEq

/-- The forEach bucket accumulation of calculateSeasonality: running
per-bucket sums and counts, keyed by a Nat bucket index. -/
def bucketAcc (key : ℚ × ℤ → ℕ) (pairs : List (ℚ × ℤ)) : (ℕ → ℚ) × (ℕ → ℕ) :=
  pairs.foldl
    (fun pc p =>
      (fun j => if j = key p then pc.1 j + p.1 else pc.1 j,
       fun j => if j = key p then pc.2 j + 1 else pc.2 j))
    (fun _ => 0, fun _ => 0)

/-- calculateSeasonality from src/utils/forecast.ts.  The source iterates
`data.forEach((value, index) => ... dates[index] ...)`; the two series are
zipped (call sites pass lists of equal length).  An empty `data` makes the
overall-average reduce throw, hence `none`.  The daily factors come from
the forEach accumulation, the weekly factors from the independent filter
recomputation; claim C7 relates the two. -/
def calculateSeasonality (data : List ℚ) (dates : List ℤ) (month : ℤ → Fin 12) :
    Option Seasonality :=
  if data = [] then none
  else
    let pairs := data.zip dates
    let daily := bucketAcc (fun p => dowIdx p.2) pairs
    let monthly := bucketAcc (fun p => (month p.2).val) pairs
    let overallAverage := data.sum / (data.length : ℚ)
    let dailyFactors : List JsNum := (List.range 7).map (fun i =>
      if daily.2 i = 0 then some 1
      else if overallAverage = 0 then none
      else some (daily.1 i / (daily.2 i : ℚ) / overallAverage))
    let weeklyFactors : List JsNum := (List.range 7).map (fun i =>
      let weekValues := (pairs.filter (fun p => dowIdx p.2 = i)).map (·.1)
      if weekValues.length = 0 then some 1
      else if overallAverage = 0 then none
      else some (weekValues.sum / (weekValues.length : ℚ) / overallAverage))
    let monthlyFactors : List JsNum := (List.range 12).map (fun i =>
      if monthly.2 i = 0 then some 1
      else if overallAverage = 0 then none
      else some (monthly.1 i / (monthly.2 i : ℚ) / overallAverage))
    some ⟨dailyFactors, weeklyFactors, monthlyFactors⟩

/-- calculateConfidenceIntervals from src/utils/forecast.ts.  The standard
error divides by (n - 2): at n = 2 that is a zero denominator and at n < 2
a negative variance argument, both non-finite, hence the n ≤ 2 guard; a
zero Σ(x - mean)² likewise makes the prediction error non-finite. -/
def calculateConfidenceIntervals (sqrtf : ℚ → ℚ) (m : ℚ × ℚ) (x y : List ℚ)
    (forecastX : ℚ) : Option (ℚ × ℚ) :=
  let predictions := x.map (predict m)
  let residuals := List.zipWith (fun actual p => actual - p) y predictions
  if y.length ≤ 2 then none
  else
    let xMean := x.sum / (x.length : ℚ)
    let xSquaredSum := (x.map (fun v => (v - xMean) ^ 2)).sum
    if xSquaredSum = 0 then none
    else do
      let stdError ← jsSqrt sqrtf ((residuals.map (fun r => r * r)).sum / ((y.length : ℚ) - 2))
      let root ← jsSqrt sqrtf (1 + 1 / (y.length : ℚ) + (forecastX - xMean) ^ 2 / xSquaredSum)
      let predictionError := stdError * root
      let predicted := predict m forecastX
      some (max 0 (predicted - (49/25) * predictionError),
            predicted + (49/25) * predictionError)

/-- calculateConfidence from src/utils/forecast.ts: the per-series score.
A constant series (SStot = 0) returns 50 before any unguarded division; a
zero mean with a positive mean absolute error gives errorScore
max(0, 1 - mae/0) = max(0, -infinity) = 0, while a zero mean with zero mae
is 0/0 = NaN, hence `none`. -/
def calculateConfidence (m : ℚ × ℚ) (x y : List ℚ) : Option ℤ :=
  let predictions := x.map (predict m)
  let meanY := y.sum / (y.length : ℚ)
  let ssRes := (List.zipWith (fun actual p => (actual - p) ^ 2) y predictions).sum
  let ssTot := (y.map (fun actual => (actual - meanY) ^ 2)).sum
  if ssTot = 0 then some 50
  else
    let rSquared := max 0 (min 1 (1 - ssRes / ssTot))
    let baseConfidence := rSquared * 100
    let dataPointsScore : ℚ := min 1 ((x.length : ℚ) / 30)
    let meanAbsError := (List.zipWith (fun actual p => |actual - p|) y predictions).sum / (y.length : ℚ)
    do
    let errorScore : ℚ ←
      if meanY = 0 then (if meanAbsError = 0 then none else some 0)
      else some (max 0 (1 - meanAbsError / meanY))
    let finalConfidence := jsRound (baseConfidence * (2/5) + dataPointsScore * 30 + errorScore * 30)
    some (min 100 (max 0 finalConfidence))

/-- calculateVariation from src/utils/forecast.ts: standard deviation of
the factors.  The opening no-initial-value reduce would throw on an empty
array (unreachable: call sites pass the 19 concatenated factors). -/
def calculateVariation (sqrtf : ℚ → ℚ) (factors : List JsNum) : JsNum :=
  match factors with
  | [] => none
  | f0 :: rest => do
    let total ← rest.foldl jsAdd f0
    let mean := total / (factors.length : ℚ)
    let varSum ← factors.foldl (fun s f => jsAdd s (f.map (fun v => (v - mean) ^ 2))) (some 0)
    jsSqrt sqrtf (varSum / (factors.length : ℚ))

/-- calculateSeasonalityStrength from src/utils/forecast.ts.  The source
try/catch fallback to 0.8 fires only on a thrown exception (an empty
reduce), which cannot happen for the 19-element factor arrays built by
calculateSeasonality; NaN does not throw and is propagated as `none`. -/
def calculateSeasonalityStrength (sqrtf : ℚ → ℚ) (s o : Seasonality) : JsNum := do
  let salesVariation ← calculateVariation sqrtf (s.daily ++ s.monthly)
  let ordersVariation ← calculateVariation sqrtf (o.daily ++ o.monthly)
  let normalizedSalesVar := min 1 salesVariation
  let normalizedOrdersVar := min 1 ordersVariation
  some ((4/5) + min (1/5) ((normalizedSalesVar + normalizedOrdersVar) / 4))

/-- calculateDataConsistency from src/utils/forecast.ts: gap score over the
sorted dates; a gap is a consecutive pair more than one day apart. -/
def calculateDataConsistency (dates : List ℤ) : ℚ :=
  if dates.length < 2 then 1/2
  else
    let gapCount := ((dates.zip dates.tail).filter (fun p => 1 < p.2 - p.1)).length
    max (1/2) (1 - (gapCount : ℚ) / (dates.length : ℚ))

/-- One iteration of the forecast generation loop of generateSalesForecast:
the point for day offset `i` from today.  A NaN in any stored metric field
(non-finite seasonal factor or interval) makes the whole run `none`. -/
def mkForecastPoint (sqrtf : ℚ → ℚ) (month : ℤ → Fin 12) (sm om : ℚ × ℚ)
    (x ySales yOrders : List ℚ) (sS oS : Seasonality) (firstDate today : ℤ)
    (i : ℕ) : Option ForecastResult := do
  let forecastDate := today + (i : ℤ)
  let daysSinceStart : ℚ := ((forecastDate - firstDate : ℤ) : ℚ)
  let dayOfWeek := dowIdx forecastDate
  let m := (month forecastDate).val
  let salesIntervals ← calculateConfidenceIntervals sqrtf sm x ySales daysSinceStart
  let ordersIntervals ← calculateConfidenceIntervals sqrtf om x yOrders daysSinceStart
  let sdf ← sS.daily.getD dayOfWeek none
  let smf ← sS.monthly.getD m none
  let odf ← oS.daily.getD dayOfWeek none
  let omf ← oS.monthly.getD m none
  let salesSeasonalFactor := sdf * smf
  let ordersSeasonalFactor := odf * omf
  let predictedSales := max 0 (jsRound (predict sm daysSinceStart * salesSeasonalFactor))
  let predictedOrders := max 0 (jsRound (predict om daysSinceStart * ordersSeasonalFactor))
  some
    { timestamp := forecastDate
      sales := predictedSales
      orders := predictedOrders
      salesLower := max 0 (jsRound (salesIntervals.1 * salesSeasonalFactor))
      salesUpper := jsRound (salesIntervals.2 * salesSeasonalFactor)
      ordersLower := max 0 (jsRound (ordersIntervals.1 * ordersSeasonalFactor))
      ordersUpper := jsRound (ordersIntervals.2 * ordersSeasonalFactor)
      isForecast := true }

/-- generateSalesForecast from src/utils/forecast.ts.  Gates in source
order: empty history, then fewer than 7 points, then (after sorting) the
all-zero sales or orders check; only then the statistical pipeline. -/
def generateSalesForecast (sqrtf : ℚ → ℚ) (month : ℤ → Fin 12) (today : ℤ)
    (historicalData : List Metrics) (range : ForecastRange) : Option ForecastOutput :=
  if historicalData = [] then some ⟨[], 0⟩
  else if historicalData.length < 7 then
    some ⟨[], min 50 ((historicalData.length : ℤ) * 7)⟩
  else
    let sortedData := sortByLt (fun a b => a.timestamp < b.timestamp) historicalData
    let dates := sortedData.map (·.timestamp)
    let firstDate := dates.getD 0 0
    let x : List ℚ := dates.map (fun d => ((d - firstDate : ℤ) : ℚ))
    let rawSales := sortedData.map (·.sales)
    let rawOrders := sortedData.map (·.orders)
    if rawSales.all (fun v => v = 0) ∨ rawOrders.all (fun v => v = 0) then some ⟨[], 0⟩
    else do
      let ySales := handleOutliers rawSales
      let yOrders := handleOutliers rawOrders
      let salesRegression ← simpleLinearRegression x ySales
      let ordersRegression ← simpleLinearRegression x yOrders
      let salesSeasonality ← calculateSeasonality ySales dates month
      let ordersSeasonality ← calculateSeasonality yOrders dates month
      let daysToForecast := getDaysForRange range
      let forecast ← optionTraverse
        (mkForecastPoint sqrtf month salesRegression ordersRegression x ySales yOrders
          salesSeasonality ordersSeasonality firstDate today)
        (List.range daysToForecast)
      let salesConfidence ← calculateConfidence salesRegression x ySales
      let ordersConfidence ← calculateConfidence ordersRegression x yOrders
      let dataQualityScore : ℚ := min 1 ((historicalData.length : ℚ) / 60)
      let consistencyScore := calculateDataConsistency dates
      let seasonalityScore ← calculateSeasonalityStrength sqrtf salesSeasonality ordersSeasonality
      let averageConfidence := jsRound
        ((((salesConfidence : ℚ) + (ordersConfidence : ℚ)) / 2) *
          dataQualityScore * seasonalityScore * consistencyScore)
      some ⟨forecast, min 100 (max 0 averageConfidence)⟩

/-- Residual sum of squares of the fitted line on paired data. -/
def ssResP (l : List (ℚ × ℚ)) (m : ℚ × ℚ) : ℚ :=
  (l.map (fun p => (p.2 - predict m p.1) ^ 2)).sum

/-- Total sum of squares around the mean of the second components. -/
def ssTotP (l : List (ℚ × ℚ)) : ℚ :=
  (l.map (fun p => (p.2 - (l.map (·.2)).sum / (l.length : ℚ)) ^ 2)).sum

/-! # General lemmas about the modelling primitives -/

theorem jsRound_mono {a b : ℚ} (h : a ≤ b) : jsRound a ≤ jsRound b :=
  Int.floor_le_floor (by linarith)

theorem jsRound_intCast (n : ℤ) : jsRound ((n : ℤ) : ℚ) = n := by
  unfold jsRound
  rw [add_comm, Int.floor_add_int]
  norm_num

theorem jsRound_zero : jsRound 0 = 0 := by
  simpa using jsRound_intCast 0

theorem jsRound_max (a b : ℚ) : jsRound (max a b) = max (jsRound a) (jsRound b) := by
  rcases le_total a b with h | h
  · rw [max_eq_right h, max_eq_right (jsRound_mono h)]
  · rw [max_eq_left h, max_eq_left (jsRound_mono h)]

theorem jsRound_le (q : ℚ) : (jsRound q : ℚ) ≤ q + 1/2 := Int.floor_le _

theorem lt_jsRound (q : ℚ) : q - 1/2 < (jsRound q : ℚ) := by
  have := Int.lt_floor_add_one (q + 1/2)
  unfold jsRound
  linarith

theorem sum_map_sq_nonneg {α : Type} (l : List α) (f : α → ℚ) :
    0 ≤ (l.map (fun a => f a ^ 2)).sum := by
  apply List.sum_nonneg
  intro x hx
  obtain ⟨a, _, rfl⟩ := List.mem_map.mp hx
  positivity

theorem foldl_add_eq_sum (t : List ℚ) (a : ℚ) : t.foldl (· + ·) a = a + t.sum := by
  induction t generalizing a with
  | nil => simp
  | cons b u ih => rw [List.foldl_cons, ih, List.sum_cons]; ring

theorem reduce1_eq_sum {l : List ℚ} {s : ℚ} (h : reduce1 l = some s) : s = l.sum := by
  cases l with
  | nil => simp [reduce1] at h
  | cons a t =>
    simp only [reduce1, Option.some_inj] at h
    rw [← h, foldl_add_eq_sum, List.sum_cons]

theorem insertLt_perm {α : Type} (lt : α → α → Bool) (a : α) (l : List α) :
    (insertLt lt a l).Perm (a :: l) := by
  induction l with
  | nil => exact List.Perm.refl _
  | cons b t ih =>
    unfold insertLt
    split
    · exact List.Perm.refl _
    · exact (List.Perm.cons b ih).trans (List.Perm.swap a b t)

theorem sortByLt_perm {α : Type} (lt : α → α → Bool) (l : List α) :
    (sortByLt lt l).Perm l := by
  induction l with
  | nil => exact List.Perm.refl _
  | cons a t ih =>
    have : sortByLt lt (a :: t) = insertLt lt a (sortByLt lt t) := rfl
    rw [this]
    exact (insertLt_perm lt a (sortByLt lt t)).trans (List.Perm.cons a ih)

theorem mem_sortByLt {α : Type} {lt : α → α → Bool} {l : List α} {a : α}
    (h : a ∈ sortByLt lt l) : a ∈ l :=
  (sortByLt_perm lt l).mem_iff.mp h

theorem sortByLt_length {α : Type} (lt : α → α → Bool) (l : List α) :
    (sortByLt lt l).length = l.length :=
  (sortByLt_perm lt l).length_eq

theorem optionTraverse_mem {α β : Type} (f : α → Option β) :
    ∀ (l : List α) (ys : List β), optionTraverse f l = some ys →
      ∀ y ∈ ys, ∃ a ∈ l, f a = some y := by
  intro l
  induction l with
  | nil =>
    intro ys h y hy
    simp only [optionTraverse, Option.some_inj] at h
    subst h
    simp at hy
  | cons a t ih =>
    intro ys h y hy
    simp only [optionTraverse, Option.bind_eq_bind, Option.bind_eq_some] at h
    obtain ⟨b, hb, bs, hbs, hys⟩ := h
    obtain rfl : b :: bs = ys := Option.some_inj.mp hys
    rcases List.mem_cons.mp hy with rfl | hmem
    · exact ⟨a, List.mem_cons_self a t, hb⟩
    · obtain ⟨w, hw, hfw⟩ := ih bs hbs y hmem
      exact ⟨w, List.mem_cons_of_mem a hw, hfw⟩

theorem bucketAcc_spec (key : ℚ × ℤ → ℕ) (pairs : List (ℚ × ℤ)) (j : ℕ) :
    (bucketAcc key pairs).1 j = ((pairs.filter (fun p => key p = j)).map (·.1)).sum ∧
    (bucketAcc key pairs).2 j = (pairs.filter (fun p => key p = j)).length := by
  suffices h : ∀ (P : ℕ → ℚ) (C : ℕ → ℕ),
      (pairs.foldl
        (fun (pc : (ℕ → ℚ) × (ℕ → ℕ)) p =>
          (fun i => if i = key p then pc.1 i + p.1 else pc.1 i,
           fun i => if i = key p then pc.2 i + 1 else pc.2 i))
        (P, C)).1 j = P j + ((pairs.filter (fun p => key p = j)).map (·.1)).sum ∧
      (pairs.foldl
        (fun (pc : (ℕ → ℚ) × (ℕ → ℕ)) p =>
          (fun i => if i = key p then pc.1 i + p.1 else pc.1 i,
           fun i => if i = key p then pc.2 i + 1 else pc.2 i))
        (P, C)).2 j = C j + (pairs.filter (fun p => key p = j)).length by
    have := h (fun _ => 0) (fun _ => 0)
    simpa [bucketAcc] using this
  induction pairs with
  | nil => intro P C; simp
  | cons p t ih =>
    intro P C
    rw [List.foldl_cons]
    refine ⟨((ih _ _).1).trans ?_, ((ih _ _).2).trans ?_⟩
    · by_cases hk : key p = j
      · simp only [List.filter_cons, hk]
        simp
        ring
      · have hk2 : ¬j = key p := fun h => hk h.symm
        simp only [List.filter_cons]
        simp [hk, hk2]
    · by_cases hk : key p = j
      · simp only [List.filter_cons, hk]
        simp
        omega
      · have hk2 : ¬j = key p := fun h => hk h.symm
        simp only [List.filter_cons]
        simp [hk, hk2]

theorem handleOutliers_length (data : List ℚ) :
    (handleOutliers data).length = data.length := by
  unfold handleOutliers
  split
  · rfl
  · simp [List.length_map, List.enum_length]

theorem handleOutliers_short {data : List ℚ} (h : data.length < 4) :
    handleOutliers data = data := by
  unfold handleOutliers
  rw [if_pos h]

theorem handleOutliers_nonneg {data : List ℚ} (h : ∀ v ∈ data, 0 ≤ v) :
    ∀ v ∈ handleOutliers data, 0 ≤ v := by
  unfold handleOutliers
  split
  · exact h
  · intro v hv
    obtain ⟨p, hp, rfl⟩ := List.mem_map.mp hv
    have hpmem : p.2 ∈ data := by
      obtain ⟨i, x⟩ := p
      obtain ⟨hlt, hx⟩ := List.mem_enum hp
      exact hx ▸ List.getElem_mem hlt
    dsimp only
    split
    · split
      · apply div_nonneg
        · apply List.sum_nonneg
          intro w hw
          exact h w (List.mem_of_mem_drop (List.mem_of_mem_take (List.mem_of_mem_filter hw)))
        · positivity
      · exact h p.2 hpmem
    · exact h p.2 hpmem

theorem scan_optimalPrice_mem (reg : Option (ℚ × ℚ)) (sf : List ℚ) (cd : ℤ) (goal : Goal)
    (cost adq tpf : ℚ) :
    ∀ (ps : List ℚ) (st : ScanState),
      (ps.foldl (scanStep reg sf cd goal cost adq tpf) st).optimalPrice = st.optimalPrice ∨
      (ps.foldl (scanStep reg sf cd goal cost adq tpf) st).optimalPrice ∈ ps := by
  intro ps
  induction ps with
  | nil => intro st; left; rfl
  | cons p t ih =>
    intro st
    rw [List.foldl_cons]
    rcases ih (scanStep reg sf cd goal cost adq tpf st p) with h | h
    · rw [h]
      unfold scanStep
      dsimp only
      split
      · left; rfl
      · split
        · right; exact List.mem_cons_self p t
        · left; rfl
    · right; exact List.mem_cons_of_mem p h

/-! # Ordinary-least-squares facts for the demand regression -/

theorem sum_sq_shift_expand (l : List (ℚ × ℚ)) (t s b : ℚ) :
    (l.map (fun p => (p.2 - t - b * (p.1 - s)) ^ 2)).sum
      = (l.map (fun p => (p.2 - t) ^ 2)).sum
        - 2 * b * (l.map (fun p => (p.1 - s) * (p.2 - t))).sum
        + b ^ 2 * (l.map (fun p => (p.1 - s) ^ 2)).sum := by
  induction l with
  | nil => simp
  | cons h tl ih =>
    simp only [List.map_cons, List.sum_cons, ih]
    ring

theorem sum_center_sq (l : List (ℚ × ℚ)) (s : ℚ) :
    (l.map (fun p => (p.1 - s) ^ 2)).sum
      = (l.map (fun p => p.1 * p.1)).sum - 2 * s * (l.map (·.1)).sum
        + (l.length : ℚ) * s ^ 2 := by
  induction l with
  | nil => simp
  | cons h tl ih =>
    simp only [List.map_cons, List.sum_cons, ih, List.length_cons]
    push_cast
    ring

theorem sum_center_mul (l : List (ℚ × ℚ)) (s t : ℚ) :
    (l.map (fun p => (p.1 - s) * (p.2 - t))).sum
      = (l.map (fun p => p.1 * p.2)).sum - t * (l.map (·.1)).sum
        - s * (l.map (·.2)).sum + (l.length : ℚ) * (s * t) := by
  induction l with
  | nil => simp
  | cons h tl ih =>
    simp only [List.map_cons, List.sum_cons, ih, List.length_cons]
    push_cast
    ring

/-- Key ordinary-least-squares fact: for the line fitted by
simpleLinearRegression, the residual sum of squares is nonnegative and at
most the total sum of squares, hence R-squared lies in [0, 1] in exact
arithmetic whenever it is finite. -/
theorem ols_ssRes_le_ssTot (l : List (ℚ × ℚ)) (m : ℚ × ℚ)
    (hm : simpleLinearRegression (l.map (·.1)) (l.map (·.2)) = some m) :
    0 ≤ ssResP l m ∧ ssResP l m ≤ ssTotP l := by
  have e1 : ((l.map (·.1)).zip (l.map (·.2))).map (fun p => p.1 * p.2)
      = l.map (fun p => p.1 * p.2) := by
    rw [List.zip_map', List.map_map]
    exact List.map_congr_left (fun a _ => rfl)
  have e2 : (l.map (·.1)).map (fun v => v * v) = l.map (fun p => p.1 * p.1) := by
    rw [List.map_map]
    exact List.map_congr_left (fun a _ => rfl)
  unfold simpleLinearRegression at hm
  rw [e1, e2, List.length_map] at hm
  set n : ℚ := (l.length : ℚ) with hn
  set sx := (l.map (·.1)).sum with hsx
  set sy := (l.map (·.2)).sum with hsy
  set sxy := (l.map (fun p => p.1 * p.2)).sum with hsxy
  set sxx := (l.map (fun p => p.1 * p.1)).sum with hsxx
  by_cases hden : n * sxx - sx * sx = 0
  · rw [if_pos hden] at hm
    exact absurd hm (by simp)
  · rw [if_neg hden] at hm
    have hnil : l ≠ [] := by
      rintro rfl
      apply hden
      simp [hn, hsx, hsxx]
    have hn0 : n ≠ 0 := by
      have : 0 < l.length := List.length_pos.mpr hnil
      rw [hn]
      positivity
    obtain rfl : ((n * sxy - sx * sy) / (n * sxx - sx * sx),
        sy / n - (n * sxy - sx * sy) / (n * sxx - sx * sx) * (sx / n)) = m := by
      simpa using hm
    set b := (n * sxy - sx * sy) / (n * sxx - sx * sx) with hb
    have hres : ssResP l (b, sy / n - b * (sx / n))
        = (l.map (fun p => (p.2 - sy / n - b * (p.1 - sx / n)) ^ 2)).sum := by
      unfold ssResP
      apply congrArg
      apply List.map_congr_left
      intro p _
      unfold predict
      ring_nf
    have hSxx : (l.map (fun p => (p.1 - sx / n) ^ 2)).sum = (n * sxx - sx * sx) / n := by
      rw [sum_center_sq, ← hsx, ← hsxx, ← hn]
      field_simp
      ring
    have hSxy : (l.map (fun p => (p.1 - sx / n) * (p.2 - sy / n))).sum
        = (n * sxy - sx * sy) / n := by
      rw [sum_center_mul, ← hsx, ← hsy, ← hsxy, ← hn]
      field_simp
      ring
    have hbS : b * ((l.map (fun p => (p.1 - sx / n) ^ 2)).sum)
        = (l.map (fun p => (p.1 - sx / n) * (p.2 - sy / n))).sum := by
      rw [hSxx, hSxy, hb]
      field_simp
    have hSxx_nonneg : 0 ≤ (l.map (fun p => (p.1 - sx / n) ^ 2)).sum :=
      sum_map_sq_nonneg l _
    have htot : ssTotP l = (l.map (fun p => (p.2 - sy / n) ^ 2)).sum := by
      unfold ssTotP
      rw [← hsy, ← hn]
    constructor
    · exact hres ▸ sum_map_sq_nonneg l _
    · rw [hres, htot, sum_sq_shift_expand, ← hbS]
      have hkey : (l.map (fun p => (p.2 - sy / n) ^ 2)).sum
            - 2 * b * (b * (l.map (fun p => (p.1 - sx / n) ^ 2)).sum)
            + b ^ 2 * (l.map (fun p => (p.1 - sx / n) ^ 2)).sum
          = (l.map (fun p => (p.2 - sy / n) ^ 2)).sum
            - b ^ 2 * (l.map (fun p => (p.1 - sx / n) ^ 2)).sum := by
        ring
      rw [hkey]
      have := mul_nonneg (sq_nonneg b) hSxx_nonneg
      linarith

/-! # Facts about the seasonality factors and confidence intervals -/

theorem range_map_getD_some {F : ℕ → JsNum} {k j : ℕ} {v : ℚ}
    (h : ((List.range k).map F).getD j none = some v) : j < k ∧ F j = some v := by
  by_cases hj : j < k
  · refine ⟨hj, ?_⟩
    have hlen : j < ((List.range k).map F).length := by
      simpa [List.length_map, List.length_range] using hj
    rw [List.getD_eq_getElem _ _ hlen] at h
    rw [List.getElem_map] at h
    rwa [List.getElem_range] at h
  · exfalso
    rw [List.getD_eq_default] at h
    · exact Option.noConfusion h
    · simpa [List.length_map, List.length_range] using not_lt.mp hj

theorem calculateSeasonality_factors_nonneg {data : List ℚ} {dates : List ℤ}
    {month : ℤ → Fin 12} {s : Seasonality}
    (hs : calculateSeasonality data dates month = some s)
    (hnn : ∀ v ∈ data, 0 ≤ v) :
    (∀ j v, s.daily.getD j none = some v → 0 ≤ v) ∧
    (∀ j v, s.monthly.getD j none = some v → 0 ≤ v) := by
  unfold calculateSeasonality at hs
  split at hs
  · exact absurd hs (by simp)
  · obtain rfl := Option.some_inj.mp hs
    have havg : 0 ≤ data.sum / (data.length : ℚ) := by
      apply div_nonneg (List.sum_nonneg hnn)
      positivity
    have hfilter_nonneg : ∀ (key : ℚ × ℤ → ℕ) (j : ℕ),
        0 ≤ (((data.zip dates).filter (fun p => key p = j)).map (·.1)).sum := by
      intro key j
      apply List.sum_nonneg
      intro w hw
      obtain ⟨p, hp, rfl⟩ := List.mem_map.mp hw
      exact hnn p.1 (List.of_mem_zip (List.mem_of_mem_filter hp)).1
    constructor
    · intro j v h
      obtain ⟨hj, hF⟩ := range_map_getD_some h
      split at hF
      · obtain rfl := Option.some_inj.mp hF
        norm_num
      · split at hF
        · exact absurd hF (by simp)
        · obtain rfl := Option.some_inj.mp hF
          apply div_nonneg _ havg
          apply div_nonneg _ (by positivity)
          rw [(bucketAcc_spec _ (data.zip dates) j).1]
          exact hfilter_nonneg _ j
    · intro j v h
      obtain ⟨hj, hF⟩ := range_map_getD_some h
      split at hF
      · obtain rfl := Option.some_inj.mp hF
        norm_num
      · split at hF
        · exact absurd hF (by simp)
        · obtain rfl := Option.some_inj.mp hF
          apply div_nonneg _ havg
          apply div_nonneg _ (by positivity)
          rw [(bucketAcc_spec _ (data.zip dates) j).1]
          exact hfilter_nonneg _ j

theorem calculateConfidenceIntervals_bounds {sqrtf : ℚ → ℚ} {m : ℚ × ℚ}
    {x y : List ℚ} {fx : ℚ} {lo up : ℚ}
    (hsq : ∀ q : ℚ, 0 ≤ q → 0 ≤ sqrtf q)
    (h : calculateConfidenceIntervals sqrtf m x y fx = some (lo, up)) :
    ∃ c : ℚ, 0 ≤ c ∧ lo = max 0 (predict m fx - c) ∧ up = predict m fx + c := by
  unfold calculateConfidenceIntervals at h
  split at h
  · exact absurd h (by simp)
  · dsimp only at h
    split at h
    · exact absurd h (by simp)
    · simp only [Option.bind_eq_bind, Option.bind_eq_some, jsSqrt] at h
      obtain ⟨se, hse, root, hroot, hfin⟩ := h
      split at hse
      · exact absurd hse (by simp)
      · split at hroot
        · exact absurd hroot (by simp)
        · obtain rfl := Option.some_inj.mp hse
          obtain rfl := Option.some_inj.mp hroot
          have hp := Option.some_inj.mp hfin
          rw [Prod.ext_iff] at hp
          obtain ⟨h1, h2⟩ := hp
          refine ⟨(49/25) * (sqrtf _ * sqrtf _),
            mul_nonneg (by norm_num)
              (mul_nonneg (hsq _ (not_lt.mp (by assumption))) (hsq _ (not_lt.mp (by assumption)))),
            h1.symm, h2.symm⟩

theorem calculateSeasonality_daily_eq_weekly {data : List ℚ} {dates : List ℤ}
    {month : ℤ → Fin 12} {s : Seasonality}
    (hs : calculateSeasonality data dates month = some s) : s.daily = s.weekly := by
  unfold calculateSeasonality at hs
  split at hs
  · exact absurd hs (by simp)
  · obtain rfl := Option.some_inj.mp hs
    dsimp only
    apply List.map_congr_left
    intro i _
    have hcnt := (bucketAcc_spec (fun p => dowIdx p.2) (data.zip dates) i).2
    have hsum := (bucketAcc_spec (fun p => dowIdx p.2) (data.zip dates) i).1
    rw [hcnt, hsum, List.length_map]

/-! # Claim theorems -/

/-- Claim C2 (code bug): for every sales history with fewer than 2
observations, calculatePriceElasticity returns the literal -1, not the
value 1 stated by the specification.  The source comment on that line
reads Default elastic demand, yet interpretElasticity classifies -1 as
Inelastic, so the code contradicts its own documentation. -/
theorem c2_elasticity_default_is_minus_one (l : List SalesData) (h : l.length < 2) :
    calculatePriceElasticity l = some (-1) := by
  unfold calculatePriceElasticity
  rw [if_pos h]

/-- Witness for C2 at the single-observation input of the claim. -/
theorem c2_elasticity_default_is_minus_one_witness :
    calculatePriceElasticity [⟨10, 5, 0⟩] = some (-1) :=
  c2_elasticity_default_is_minus_one [⟨10, 5, 0⟩] (by decide)

/-- Claim C6 (confirmed): a non-empty history with fewer than 7 points
yields an empty forecast with confidence min(50, n·7); with 6 points the
confidence is min(50, 42) = 42. -/
theorem c6_minimum_data_gate (sqrtf : ℚ → ℚ) (month : ℤ → Fin 12) (today : ℤ)
    (data : List Metrics) (range : ForecastRange)
    (h1 : data ≠ []) (h7 : data.length < 7) :
    generateSalesForecast sqrtf month today data range
      = some ⟨[], min 50 ((data.length : ℤ) * 7)⟩ := by
  unfold generateSalesForecast
  rw [if_neg h1, if_pos h7]

/-- Witness for C6: six points give confidence 42. -/
theorem c6_minimum_data_gate_witness :
    generateSalesForecast (fun _ => 0) (fun _ => 0) 20
      [⟨0, 1, 1⟩, ⟨1, 2, 1⟩, ⟨2, 3, 1⟩, ⟨3, 4, 1⟩, ⟨4, 5, 1⟩, ⟨5, 6, 1⟩] .m1
      = some ⟨[], 42⟩ := by
  have h := c6_minimum_data_gate (fun _ => 0) (fun _ => 0) 20
    [⟨0, 1, 1⟩, ⟨1, 2, 1⟩, ⟨2, 3, 1⟩, ⟨3, 4, 1⟩, ⟨4, 5, 1⟩, ⟨5, 6, 1⟩] .m1
    (by simp) (by simp)
  simpa [show min (50 : ℤ) (6 * 7) = 42 by decide] using h

/-- Claim C7 (confirmed): whenever calculateSeasonality returns a result,
its daily and weekly factor arrays are equal element by element (both are
the per-day-of-week average over the overall average, defaulting to 1 on
an empty bucket); on an empty series the function returns nothing. -/
theorem c7_daily_equals_weekly (data : List ℚ) (dates : List ℤ) (month : ℤ → Fin 12) :
    ((calculateSeasonality data dates month).map (fun s => s.daily = s.weekly)).getD True := by
  cases h : calculateSeasonality data dates month with
  | none => simp
  | some s => simpa using calculateSeasonality_daily_eq_weekly h

/-- Claim C8 (confirmed): the outlier filter preserves length on every
input and returns series of fewer than 4 points unchanged; moreover
ordering is preserved, because each output position holds either the
original value at that index or its local-window replacement (the mean
of the in-bound values in the window slice around that index, with the
IQR bounds computed from the whole series). -/
theorem c8_outlier_filter_length (data : List ℚ) :
    (handleOutliers data).length = data.length ∧
    (data.length < 4 → handleOutliers data = data) ∧
    (∀ i, i < data.length →
      (handleOutliers data).getD i 0 = data.getD i 0 ∨
      (handleOutliers data).getD i 0 =
        (let sorted := sortByLt (fun a b => a < b) data
         let q1 := sorted.getD (data.length / 4) 0
         let q3 := sorted.getD (3 * data.length / 4) 0
         let iqr := q3 - q1
         let lowerBound := q1 - (3/2) * iqr
         let upperBound := q3 + (3/2) * iqr
         let start := i - 3
         let stop := min data.length (i + 4)
         let window := ((data.drop start).take (stop - start)).filter
           (fun v => lowerBound ≤ v ∧ v ≤ upperBound)
         window.sum / (window.length : ℚ))) := by
  refine ⟨handleOutliers_length data, fun h => handleOutliers_short h, ?_⟩
  intro i hi
  have hi0 : data.getD i 0 = data[i] := List.getD_eq_getElem data 0 hi
  unfold handleOutliers
  split
  · left; rfl
  · dsimp only
    rw [List.getD_eq_getElem _ 0 (by simpa [List.length_map, List.enum_length] using hi),
      List.getElem_map, List.getElem_enum]
    dsimp only
    split
    · split
      · right; rfl
      · left; exact hi0.symm
    · left; exact hi0.symm

/-- Witness for C8: a five-point series with one high outlier (position 4
holds the original value or the window mean 8/3, and the length is kept),
and a two-point series returned unchanged. -/
theorem c8_outlier_filter_length_witness :
    (handleOutliers [2, 3, 2, 3, 100]).length = 5 ∧
    handleOutliers [5, 9] = [5, 9] ∧
    ((handleOutliers [2, 3, 2, 3, 100]).getD 4 0 = 100 ∨
      (handleOutliers [2, 3, 2, 3, 100]).getD 4 0 = 8/3) := by
  have h := c8_outlier_filter_length [2, 3, 2, 3, 100]
  refine ⟨by simpa using h.1, (c8_outlier_filter_length [5, 9]).2.1 (by norm_num), ?_⟩
  rcases h.2.2 4 (by norm_num) with h3 | h3
  · left
    simpa using h3
  · right
    rw [h3]
    norm_num [sortByLt, insertLt]

/-- Claim C9 (confirmed): on an empty history optimizePrice throws (the
no-initial-value mean-quantity reduce), modelled as `none`; on any
non-empty history it returns a result, so a non-empty history is the
precondition of the public interface. -/
theorem c9_empty_history_throws (cp cost : ℚ) (goal : Goal) (mnD mxD : ℚ)
    (camp : Option (ℤ × ℤ)) :
    optimizePrice cp cost [] goal mnD mxD camp = none ∧
    ∀ (d : SalesData) (ds : List SalesData),
      (optimizePrice cp cost (d :: ds) goal mnD mxD camp).isSome = true := by
  constructor
  · simp [optimizePrice, reduce1]
  · intro d ds
    simp [optimizePrice, reduce1]

/-- Claim C4 counterexample: a non-empty all-zero history with fewer than
7 points does NOT return confidence 0 as the claim states: the
minimum-data gate runs first, so a single all-zero observation yields
confidence min(50, 7) = 7, which is not 0. -/
theorem c4_zero_series_counterexample :
    generateSalesForecast (fun _ => 0) (fun _ => 0) 20 [⟨0, 0, 0⟩] .m1
      = some ⟨[], 7⟩ ∧ (7 : ℤ) ≠ 0 := by
  constructor
  · unfold generateSalesForecast
    norm_num
  · decide

/-- Claim C4 (corrected): for a non-empty history whose sales are all zero
or whose orders are all zero, generateSalesForecast returns an empty
forecast, with confidence 0 when the history has at least 7 points; a
shorter history hits the minimum-data gate first and gets confidence
min(50, 7n) instead of 0. -/
theorem c4_zero_series_gate (sqrtf : ℚ → ℚ) (month : ℤ → Fin 12) (today : ℤ)
    (data : List Metrics) (range : ForecastRange)
    (h1 : data ≠ [])
    (hz : (∀ d ∈ data, d.sales = 0) ∨ (∀ d ∈ data, d.orders = 0)) :
    generateSalesForecast sqrtf month today data range
      = some ⟨[], if data.length < 7 then min 50 ((data.length : ℤ) * 7) else 0⟩ := by
  unfold generateSalesForecast
  rw [if_neg h1]
  by_cases h7 : data.length < 7
  · rw [if_pos h7, if_pos h7]
  · rw [if_neg h7, if_neg h7]
    dsimp only
    have hcond : ((sortByLt (fun a b => a.timestamp < b.timestamp) data).map (·.sales)).all
          (fun v => v = 0) = true ∨
        ((sortByLt (fun a b => a.timestamp < b.timestamp) data).map (·.orders)).all
          (fun v => v = 0) = true := by
      rcases hz with h | h
      · left
        rw [List.all_eq_true]
        intro v hv
        obtain ⟨d, hd, rfl⟩ := List.mem_map.mp hv
        simpa using h d (mem_sortByLt hd)
      · right
        rw [List.all_eq_true]
        intro v hv
        obtain ⟨d, hd, rfl⟩ := List.mem_map.mp hv
        simpa using h d (mem_sortByLt hd)
    rw [if_pos hcond]

/-- Witness for the corrected C4: seven all-zero-sales points give an
empty forecast with confidence 0. -/
theorem c4_zero_series_gate_witness :
    generateSalesForecast (fun _ => 0) (fun _ => 0) 20
      [⟨0, 0, 1⟩, ⟨1, 0, 1⟩, ⟨2, 0, 1⟩, ⟨3, 0, 1⟩, ⟨4, 0, 1⟩, ⟨5, 0, 1⟩, ⟨6, 0, 1⟩] .d7
      = some ⟨[], 0⟩ := by
  have h := c4_zero_series_gate (fun _ => 0) (fun _ => 0) 20
    [⟨0, 0, 1⟩, ⟨1, 0, 1⟩, ⟨2, 0, 1⟩, ⟨3, 0, 1⟩, ⟨4, 0, 1⟩, ⟨5, 0, 1⟩, ⟨6, 0, 1⟩] .d7
    (by simp) (Or.inl (by intro d hd; fin_cases hd <;> rfl))
  simpa using h

theorem optimizePrice_cons_isSome (cp cost : ℚ) (d : SalesData) (ds : List SalesData)
    (goal : Goal) (mnD mxD : ℚ) (camp : Option (ℤ × ℤ)) :
    (optimizePrice cp cost (d :: ds) goal mnD mxD camp).isSome = true := by
  simp [optimizePrice, reduce1]

/-- Claim C10 (confirmed): the campaign totals of optimizePrice are exact
integer multiples of the already-rounded daily figures:
expectedRevenue = dailyRevenue * campaignDays and
expectedProfit = dailyProfit * campaignDays (and when the daily figure is
NaN, so is the total). -/
theorem c10_totals_from_rounded_daily (cp cost : ℚ) (data : List SalesData)
    (goal : Goal) (mnD mxD : ℚ) (camp : Option (ℤ × ℤ)) (r : OptimizationResult)
    (h : optimizePrice cp cost data goal mnD mxD camp = some r) :
    r.expectedRevenue = r.dailyRevenue.map (fun d => d * r.campaignDays) ∧
    r.expectedProfit = r.dailyProfit.map (fun d => d * r.campaignDays) := by
  unfold optimizePrice at h
  dsimp only at h
  cases hred : reduce1 (data.map (·.quantity)) with
  | none =>
    rw [hred] at h
    exact absurd h (by simp)
  | some s =>
    rw [hred] at h
    simp only [Option.bind_eq_bind, Option.some_bind] at h
    obtain rfl := Option.some_inj.mp h
    dsimp only
    constructor
    · generalize (jsDiv _ _ : JsNum).map jsRound = o
      cases o with
      | none => rfl
      | some dr => simp only [Option.map_some', jsRound_intCast]
    · generalize (jsDiv _ _ : JsNum).map jsRound = o
      cases o with
      | none => rfl
      | some dr => simp only [Option.map_some', jsRound_intCast]

/-- Witness for C10: a concrete two-point history where the optimizer
returns a result, instantiating the totals identity. -/
theorem c10_totals_from_rounded_daily_witness :
    ((optimizePrice 30 10 [⟨10, 5, 0⟩, ⟨20, 7, 1⟩] .profit 30 30 none).map
      (fun r => r.expectedRevenue = r.dailyRevenue.map (fun d => d * r.campaignDays) ∧
                r.expectedProfit = r.dailyProfit.map (fun d => d * r.campaignDays))).getD
      False := by
  obtain ⟨r, hr⟩ := Option.isSome_iff_exists.mp
    (optimizePrice_cons_isSome 30 10 ⟨10, 5, 0⟩ [⟨20, 7, 1⟩] .profit 30 30 none)
  rw [hr]
  simpa using c10_totals_from_rounded_daily 30 10 [⟨10, 5, 0⟩, ⟨20, 7, 1⟩] .profit 30 30 none r hr

theorem pairs_fst (data : List SalesData) :
    (data.map (fun d => (d.price, d.quantity))).map (·.1) = data.map (·.price) := by
  rw [List.map_map]
  exact List.map_congr_left (fun a _ => rfl)

theorem pairs_snd (data : List SalesData) :
    (data.map (fun d => (d.price, d.quantity))).map (·.2) = data.map (·.quantity) := by
  rw [List.map_map]
  exact List.map_congr_left (fun a _ => rfl)

theorem ssRes_as_pairs (data : List SalesData) (m : ℚ × ℚ) :
    (List.zipWith (fun actual p => (actual - p) ^ 2) (data.map (·.quantity))
      ((data.map (·.price)).map (predict m))).sum
      = ssResP (data.map (fun d => (d.price, d.quantity))) m := by
  unfold ssResP
  rw [List.map_map, List.zipWith_map_left, List.zipWith_map_right, List.zipWith_same,
    List.map_map]
  exact congrArg _ (List.map_congr_left (fun a _ => rfl))

theorem ssTot_as_pairs (data : List SalesData) :
    ((data.map (·.quantity)).map
      (fun actual =>
        (actual - (data.map (·.quantity)).sum / ((data.map (·.quantity)).length : ℚ)) ^ 2)).sum
      = ssTotP (data.map (fun d => (d.price, d.quantity))) := by
  unfold ssTotP
  conv_lhs => rw [List.map_map, List.length_map]
  conv_rhs => rw [pairs_snd, List.length_map, List.map_map]
  exact congrArg _ (List.map_congr_left (fun a _ => rfl))

theorem forecast_confidence_in_range (sqrtf : ℚ → ℚ) (month : ℤ → Fin 12) (today : ℤ)
    (data : List Metrics) (range : ForecastRange) (c : ℤ)
    (h : (generateSalesForecast sqrtf month today data range).map (·.confidence) = some c) :
    0 ≤ c ∧ c ≤ 100 := by
  cases hg : generateSalesForecast sqrtf month today data range with
  | none =>
    rw [hg] at h
    exact absurd h (by simp)
  | some out =>
    rw [hg] at h
    simp only [Option.map_some'] at h
    obtain rfl := Option.some_inj.mp h
    unfold generateSalesForecast at hg
    split at hg
    · obtain rfl := Option.some_inj.mp hg
      norm_num
    · split at hg
      · obtain rfl := Option.some_inj.mp hg
        dsimp only
        refine ⟨le_min (by norm_num) (by positivity), le_trans (min_le_left _ _) (by norm_num)⟩
      · dsimp only at hg
        split at hg
        · obtain rfl := Option.some_inj.mp hg
          norm_num
        · simp only [Option.bind_eq_bind, Option.bind_eq_some] at hg
          obtain ⟨sreg, _, oreg, _, sseas, _, oseas, _, fc, _, sconf, _, oconf, _, sstr, _,
            hout⟩ := hg
          obtain rfl := Option.some_inj.mp hout
          dsimp only
          exact ⟨le_min (by norm_num) (le_max_left _ _), min_le_left _ _⟩

theorem optimize_confidence_in_range (cp cost : ℚ) (data : List SalesData) (goal : Goal)
    (mnD mxD : ℚ) (camp : Option (ℤ × ℤ)) (c : ℤ)
    (h : (optimizePrice cp cost data goal mnD mxD camp).bind (·.confidence) = some c) :
    0 ≤ c ∧ c ≤ 100 := by
  unfold optimizePrice at h
  dsimp only at h
  cases hred : reduce1 (data.map (·.quantity)) with
  | none =>
    rw [hred] at h
    exact absurd h (by simp)
  | some s =>
    rw [hred] at h
    simp only [Option.bind_eq_bind, Option.some_bind] at h
    split at h
    · exact absurd h (by simp)
    · cases hreg : simpleLinearRegression (data.map (·.price)) (data.map (·.quantity)) with
      | none =>
        rw [hreg] at h
        exact absurd h (by simp)
      | some m =>
        rw [hreg] at h
        simp only [Option.map_some'] at h
        obtain rfl := Option.some_inj.mp h
        have hs : s = (data.map (·.quantity)).sum := reduce1_eq_sum hred
        subst hs
        rw [ssRes_as_pairs, ssTot_as_pairs] at *
        set l := data.map (fun d => (d.price, d.quantity)) with hl
        have hreg2 : simpleLinearRegression (l.map (·.1)) (l.map (·.2)) = some m := by
          rw [hl, pairs_fst, pairs_snd]
          exact hreg
        have hols := ols_ssRes_le_ssTot l m hreg2
        have htot0 : ssTotP l ≠ 0 := by
          rename_i hcond
          intro hzero
          apply hcond
          rw [← ssTot_as_pairs]
          rw [ssTot_as_pairs]
          exact hzero
        have htotpos : 0 < ssTotP l := by
          rcases lt_or_eq_of_le (sum_map_sq_nonneg l _ : 0 ≤ ssTotP l) with hp | hp
          · exact hp
          · exact absurd hp.symm htot0
        have hr0 : 0 ≤ 1 - ssResP l m / ssTotP l := by
          have := (div_le_one htotpos).mpr hols.2
          linarith
        have hr1 : 1 - ssResP l m / ssTotP l ≤ 1 := by
          have : 0 ≤ ssResP l m / ssTotP l := div_nonneg hols.1 (le_of_lt htotpos)
          linarith
        constructor
        · apply Int.floor_nonneg.mpr
          nlinarith
        · have : jsRound ((1 - ssResP l m / ssTotP l) * 100) < 101 := by
            apply Int.floor_lt.mpr
            push_cast
            nlinarith
          omega

set_option maxHeartbeats 4000000 in
/-- Claim C1 counterexample: on a valid two-observation history with
constant quantities the demand regression fits perfectly and SStot is 0,
so optimizePrice computes 1 - 0/0, which is NaN in JavaScript; the
returned confidence is therefore not an integer in [0, 100] (modelled:
the result exists but its confidence field is `none`). -/
theorem c1_confidence_counterexample :
    (optimizePrice 100 50 [⟨10, 5, 0⟩, ⟨20, 5, 1⟩] .profit 0 50 none).map
      (·.confidence) = some none := by
  have hr50 : List.range 50 = [0,1,2,3,4,5,6,7,8,9,10,11,12,13,14,15,16,17,18,19,20,21,22,23,
    24,25,26,27,28,29,30,31,32,33,34,35,36,37,38,39,40,41,42,43,44,45,46,47,48,49] := by decide
  have hcns : ∀ (a : SalesData) (l : List SalesData), (a :: l = []) = False := by
    intro a l
    simp
  norm_num [optimizePrice, calculatePriceElasticity, simpleLinearRegression, predict,
    scanStep, evalCandidate, jsRound, jsAdd, jsMul, jsDiv, jsToFixed2, interpretElasticity,
    reduce1, sortByLt, insertLt, calculateSeasonalityFactor, calculateTimePressureFactor,
    campaignDaysOf, seasonalityFactorsOf, timePressureFactorOf,
    dowOf, hr50, hcns, List.zipWith, List.filter, List.sum_cons, List.getD, List.zip,
    max_def, min_def]

/-- Claim C1 (corrected): whenever the confidence computation of either
engine produces a number at all (no zero-denominator, hence no NaN), that
number is an integer in [0, 100].  The forecast engine clamps explicitly;
the optimizer relies on the ordinary-least-squares fact 0 ≤ SSres ≤ SStot.
As the counterexample shows, the unclamped optimizer confidence can also
be NaN, which falsifies the claim as stated. -/
theorem c1_confidence_in_range :
    (∀ (sqrtf : ℚ → ℚ) (month : ℤ → Fin 12) (today : ℤ) (data : List Metrics)
        (range : ForecastRange) (c : ℤ),
      (generateSalesForecast sqrtf month today data range).map (·.confidence) = some c →
      0 ≤ c ∧ c ≤ 100) ∧
    (∀ (cp cost : ℚ) (data : List SalesData) (goal : Goal) (mnD mxD : ℚ)
        (camp : Option (ℤ × ℤ)) (c : ℤ),
      (optimizePrice cp cost data goal mnD mxD camp).bind (·.confidence) = some c →
      0 ≤ c ∧ c ≤ 100) :=
  ⟨fun sqrtf month today data range c h =>
      forecast_confidence_in_range sqrtf month today data range c h,
   fun cp cost data goal mnD mxD camp c h =>
      optimize_confidence_in_range cp cost data goal mnD mxD camp c h⟩

set_option maxHeartbeats 4000000 in
/-- Witness for the corrected C1: a six-point forecast history with
confidence 42 and a two-point optimizer history with confidence 100, both
instantiating the range property. -/
theorem c1_confidence_in_range_witness :
    ((0 : ℤ) ≤ 42 ∧ (42 : ℤ) ≤ 100) ∧ ((0 : ℤ) ≤ 100 ∧ (100 : ℤ) ≤ 100) := by
  have hr50 : List.range 50 = [0,1,2,3,4,5,6,7,8,9,10,11,12,13,14,15,16,17,18,19,20,21,22,23,
    24,25,26,27,28,29,30,31,32,33,34,35,36,37,38,39,40,41,42,43,44,45,46,47,48,49] := by decide
  have hcns : ∀ (a : SalesData) (l : List SalesData), (a :: l = []) = False := by
    intro a l
    simp
  have hf : (generateSalesForecast (fun _ => 0) (fun _ => 0) 20
      [⟨0, 1, 1⟩, ⟨1, 2, 1⟩, ⟨2, 3, 1⟩, ⟨3, 4, 1⟩, ⟨4, 5, 1⟩, ⟨5, 6, 1⟩] .m1).map
      (·.confidence) = some 42 := by
    norm_num [generateSalesForecast]
    decide
  have ho : (optimizePrice 30 10 [⟨10, 5, 0⟩, ⟨20, 7, 1⟩] .profit 30 30 none).bind
      (·.confidence) = some 100 := by
    norm_num [optimizePrice, calculatePriceElasticity, simpleLinearRegression, predict,
      scanStep, evalCandidate, jsRound, jsAdd, jsMul, jsDiv, jsToFixed2, interpretElasticity,
      reduce1, sortByLt, insertLt, calculateSeasonalityFactor, calculateTimePressureFactor,
      campaignDaysOf, seasonalityFactorsOf, timePressureFactorOf,
      dowOf, hr50, hcns, List.zipWith, List.filter, List.sum_cons, List.getD, List.zip,
      max_def, min_def]
  exact ⟨c1_confidence_in_range.1 (fun _ => 0) (fun _ => 0) 20
      [⟨0, 1, 1⟩, ⟨1, 2, 1⟩, ⟨2, 3, 1⟩, ⟨3, 4, 1⟩, ⟨4, 5, 1⟩, ⟨5, 6, 1⟩] .m1 42 hf,
    c1_confidence_in_range.2 30 10 [⟨10, 5, 0⟩, ⟨20, 7, 1⟩] .profit 30 30 none 100 ho⟩

/-- Claim C3 counterexample: with minDiscount = maxDiscount = 10 and a
history of zero quantities, no candidate beats the initial zero objective,
so optimizePrice falls back to the unmodified current price and returns
optimalDiscount 0, outside the caller-supplied range [10, 10]. -/
theorem c3_discount_range_counterexample :
    (optimizePrice 100 50 [⟨10, 0, 0⟩, ⟨20, 0, 1⟩] .profit 10 10 none).map
      (·.optimalDiscount) = some (some 0) ∧ (0 : ℤ) < 10 := by
  have hr50 : List.range 50 = [0,1,2,3,4,5,6,7,8,9,10,11,12,13,14,15,16,17,18,19,20,21,22,23,
    24,25,26,27,28,29,30,31,32,33,34,35,36,37,38,39,40,41,42,43,44,45,46,47,48,49] := by decide
  have hcns : ∀ (a : SalesData) (l : List SalesData), (a :: l = []) = False := by
    intro a l
    simp
  constructor
  · norm_num [optimizePrice, calculatePriceElasticity, simpleLinearRegression, predict,
      scanStep, evalCandidate, jsRound, jsAdd, jsMul, jsDiv, jsToFixed2, interpretElasticity,
      reduce1, sortByLt, insertLt, calculateSeasonalityFactor, calculateTimePressureFactor,
      campaignDaysOf, seasonalityFactorsOf, timePressureFactorOf,
      dowOf, hr50, hcns, List.zipWith, List.filter, List.sum_cons, List.getD, List.zip,
      max_def, min_def]
  · decide

/-- Claim C3 (corrected): when minDiscount ≤ maxDiscount and the current
price is positive, the returned optimalDiscount is either 0 (the fallback
when no candidate exceeds the zero objective, which can lie outside the
requested range) or within the requested range widened by the rounding
slack: the selected candidate price was rounded to a whole unit, moving
the discount by at most 50/currentPrice percentage points, and the
discount itself is rounded, adding one half. -/
theorem c3_discount_range (cp cost : ℚ) (data : List SalesData) (goal : Goal)
    (mnD mxD : ℚ) (camp : Option (ℤ × ℤ)) (d : ℤ)
    (hdm : mnD ≤ mxD) (hcp : 0 < cp)
    (h : (optimizePrice cp cost data goal mnD mxD camp).bind (·.optimalDiscount) = some d) :
    d = 0 ∨ (mnD - 50 / cp - 1/2 ≤ (d : ℚ) ∧ (d : ℚ) ≤ mxD + 50 / cp + 1/2) := by
  unfold optimizePrice at h
  dsimp only at h
  cases hred : reduce1 (data.map (·.quantity)) with
  | none =>
    rw [hred] at h
    exact absurd h (by simp)
  | some s =>
    rw [hred] at h
    simp only [Option.bind_eq_bind, Option.some_bind] at h
    rw [if_neg hcp.ne'] at h
    simp only [Option.map_some'] at h
    have hd := (Option.some_inj.mp h).symm
    rcases scan_optimalPrice_mem
        (simpleLinearRegression (data.map (·.price)) (data.map (·.quantity)))
        (seasonalityFactorsOf camp) (campaignDaysOf camp) goal cost
        ((data.map (·.quantity)).sum / ((data.map (·.quantity)).length : ℚ))
        (timePressureFactorOf camp)
        ((List.range 50).map (fun (i : ℕ) =>
          ((jsRound (cp * (1 - mxD / 100) +
              (i : ℚ) * (cp * (1 - mnD / 100) - cp * (1 - mxD / 100)) / 49) : ℤ) : ℚ)))
        ⟨0, cp, some 0, some 0⟩ with hP | hP
    · left
      rw [hd, hP]
      simp [jsRound_zero]
    · right
      obtain ⟨i, hi, hpi⟩ := List.mem_map.mp hP
      have hi50 : (i : ℚ) ≤ 49 := by
        have := List.mem_range.mp hi
        exact_mod_cast Nat.lt_succ_iff.mp this
      have hi0 : (0 : ℚ) ≤ (i : ℚ) := by positivity
      set raw := cp * (1 - mxD / 100) +
          (i : ℚ) * (cp * (1 - mnD / 100) - cp * (1 - mxD / 100)) / 49 with hraw
      have hΔ : 0 ≤ cp * (1 - mnD / 100) - cp * (1 - mxD / 100) := by nlinarith
      have hraw_lo : cp * (1 - mxD / 100) ≤ raw := by
        rw [hraw]
        nlinarith
      have hraw_hi : raw ≤ cp * (1 - mnD / 100) := by
        rw [hraw]
        nlinarith
      set P := (List.foldl
          (scanStep (simpleLinearRegression (data.map (·.price)) (data.map (·.quantity)))
            (seasonalityFactorsOf camp) (campaignDaysOf camp) goal cost
            ((data.map (·.quantity)).sum / ((data.map (·.quantity)).length : ℚ))
            (timePressureFactorOf camp))
          ⟨0, cp, some 0, some 0⟩
          ((List.range 50).map (fun (i : ℕ) =>
            ((jsRound (cp * (1 - mxD / 100) +
                (i : ℚ) * (cp * (1 - mnD / 100) - cp * (1 - mxD / 100)) / 49) : ℤ) : ℚ)))).optimalPrice
        with hPdef
      have hP_lo : cp * (1 - mxD / 100) - 1/2 ≤ P := by
        rw [← hpi]
        have := lt_jsRound raw
        linarith
      have hP_hi : P ≤ cp * (1 - mnD / 100) + 1/2 := by
        rw [← hpi]
        have := jsRound_le raw
        linarith
      have hq_lo : mnD - 50 / cp ≤ (cp - P) / cp * 100 := by
        rw [div_mul_eq_mul_div, le_div_iff₀ hcp, sub_mul, div_mul_cancel₀ _ hcp.ne']
        nlinarith
      have hq_hi : (cp - P) / cp * 100 ≤ mxD + 50 / cp := by
        rw [div_mul_eq_mul_div, div_le_iff₀ hcp, add_mul, div_mul_cancel₀ _ hcp.ne']
        nlinarith
      constructor
      · rw [hd]
        have := lt_jsRound ((cp - P) / cp * 100)
        linarith
      · rw [hd]
        have := jsRound_le ((cp - P) / cp * 100)
        linarith

set_option maxHeartbeats 4000000 in
/-- Witness for the corrected C3: a winning candidate at discount 30 for
range [30, 30] around current price 30, within the widened bounds. -/
theorem c3_discount_range_witness :
    (30 : ℤ) = 0 ∨ ((30 : ℚ) - 50 / 30 - 1/2 ≤ ((30 : ℤ) : ℚ) ∧
      ((30 : ℤ) : ℚ) ≤ 30 + 50 / 30 + 1/2) := by
  have hr50 : List.range 50 = [0,1,2,3,4,5,6,7,8,9,10,11,12,13,14,15,16,17,18,19,20,21,22,23,
    24,25,26,27,28,29,30,31,32,33,34,35,36,37,38,39,40,41,42,43,44,45,46,47,48,49] := by decide
  have hcns : ∀ (a : SalesData) (l : List SalesData), (a :: l = []) = False := by
    intro a l
    simp
  have heval : (optimizePrice 30 10 [⟨10, 5, 0⟩, ⟨20, 7, 1⟩] .profit 30 30 none).bind
      (·.optimalDiscount) = some 30 := by
    norm_num [optimizePrice, calculatePriceElasticity, simpleLinearRegression, predict,
      scanStep, evalCandidate, jsRound, jsAdd, jsMul, jsDiv, jsToFixed2, interpretElasticity,
      reduce1, sortByLt, insertLt, calculateSeasonalityFactor, calculateTimePressureFactor,
      campaignDaysOf, seasonalityFactorsOf, timePressureFactorOf,
      dowOf, hr50, hcns, List.zipWith, List.filter, List.sum_cons, List.getD, List.zip,
      max_def, min_def]
  exact c3_discount_range 30 10 [⟨10, 5, 0⟩, ⟨20, 7, 1⟩] .profit 30 30 none 30
    (le_refl 30) (by norm_num) heval

theorem max_zero_mul {a f : ℚ} (hf : 0 ≤ f) : max 0 a * f = max 0 (a * f) := by
  rw [max_mul_of_nonneg _ _ hf, zero_mul]

theorem jsRound_max_zero (a : ℚ) : jsRound (max 0 a) = max 0 (jsRound a) := by
  rw [jsRound_max, jsRound_zero]

/-- Claim C5 (corrected): for every ForecastPoint of a completed forecast
on nonnegative history data, the lower bounds are nonnegative and below
the point values, and the point values are below the upper bounds
whenever those upper bounds are nonnegative; a strongly declining trend
makes the unclamped upper bounds negative, in which case the clamped
point value 0 exceeds them, falsifying the claim as stated. -/
theorem c5_point_bounds (sqrtf : ℚ → ℚ) (month : ℤ → Fin 12) (today : ℤ)
    (data : List Metrics) (range : ForecastRange) (pt : ForecastResult)
    (hsq : ∀ q : ℚ, 0 ≤ q → 0 ≤ sqrtf q)
    (hnn : ∀ d ∈ data, 0 ≤ d.sales ∧ 0 ≤ d.orders)
    (hpt : pt ∈ ((generateSalesForecast sqrtf month today data range).map
      (·.forecastData)).getD []) :
    0 ≤ pt.salesLower ∧ pt.salesLower ≤ pt.sales ∧
    (0 ≤ pt.salesUpper → pt.sales ≤ pt.salesUpper) ∧
    0 ≤ pt.ordersLower ∧ pt.ordersLower ≤ pt.orders ∧
    (0 ≤ pt.ordersUpper → pt.orders ≤ pt.ordersUpper) := by
  cases hg : generateSalesForecast sqrtf month today data range with
  | none => rw [hg] at hpt; simp at hpt
  | some out =>
    rw [hg] at hpt
    simp only [Option.map_some', Option.getD_some] at hpt
    unfold generateSalesForecast at hg
    split at hg
    · obtain rfl := Option.some_inj.mp hg
      simp at hpt
    · split at hg
      · obtain rfl := Option.some_inj.mp hg
        simp at hpt
      · dsimp only at hg
        split at hg
        · obtain rfl := Option.some_inj.mp hg
          simp at hpt
        · simp only [Option.bind_eq_bind, Option.bind_eq_some] at hg
          obtain ⟨sreg, hsreg, oreg, horeg, sseas, hsseas, oseas, hoseas, fc, hfc,
            sconf, hsconf, oconf, hoconf, sstr, hsstr, hout⟩ := hg
          obtain rfl := Option.some_inj.mp hout
          dsimp only at hpt
          obtain ⟨i, _, hmk⟩ := optionTraverse_mem _ _ _ hfc pt hpt
          have hrawS : ∀ v ∈ (sortByLt (fun a b => a.timestamp < b.timestamp) data).map
              (·.sales), 0 ≤ v := by
            intro v hv
            obtain ⟨dd, hdd, rfl⟩ := List.mem_map.mp hv
            exact (hnn dd (mem_sortByLt hdd)).1
          have hrawO : ∀ v ∈ (sortByLt (fun a b => a.timestamp < b.timestamp) data).map
              (·.orders), 0 ≤ v := by
            intro v hv
            obtain ⟨dd, hdd, rfl⟩ := List.mem_map.mp hv
            exact (hnn dd (mem_sortByLt hdd)).2
          have hfS := calculateSeasonality_factors_nonneg hsseas
            (handleOutliers_nonneg hrawS)
          have hfO := calculateSeasonality_factors_nonneg hoseas
            (handleOutliers_nonneg hrawO)
          unfold mkForecastPoint at hmk
          simp only [Option.bind_eq_bind, Option.bind_eq_some] at hmk
          obtain ⟨sIv, hsIv, oIv, hoIv, sdf, hsdf, smf, hsmf, odf, hodf, omf, homf,
            hpt_eq⟩ := hmk
          obtain rfl := Option.some_inj.mp hpt_eq
          obtain ⟨slo, sup⟩ := sIv
          obtain ⟨olo, oup⟩ := oIv
          obtain ⟨cS, hcS, hslo, hsup⟩ := calculateConfidenceIntervals_bounds hsq hsIv
          obtain ⟨cO, hcO, holo, houp⟩ := calculateConfidenceIntervals_bounds hsq hoIv
          have hsdf0 : 0 ≤ sdf := hfS.1 _ _ hsdf
          have hsmf0 : 0 ≤ smf := hfS.2 _ _ hsmf
          have hodf0 : 0 ≤ odf := hfO.1 _ _ hodf
          have homf0 : 0 ≤ omf := hfO.2 _ _ homf
          have hfs : 0 ≤ sdf * smf := mul_nonneg hsdf0 hsmf0
          have hfo : 0 ≤ odf * omf := mul_nonneg hodf0 homf0
          subst hslo
          subst hsup
          subst holo
          subst houp
          dsimp only
          constructor
          · exact le_max_left 0 _
          constructor
          · rw [max_zero_mul hfs, jsRound_max_zero, ← max_assoc, max_self]
            apply max_le_max (le_refl 0)
            apply jsRound_mono
            exact mul_le_mul_of_nonneg_right (sub_le_self _ hcS) hfs
          constructor
          · intro hub
            apply max_le hub
            exact jsRound_mono (mul_le_mul_of_nonneg_right (le_add_of_nonneg_right hcS) hfs)
          constructor
          · exact le_max_left 0 _
          constructor
          · rw [max_zero_mul hfo, jsRound_max_zero, ← max_assoc, max_self]
            apply max_le_max (le_refl 0)
            apply jsRound_mono
            exact mul_le_mul_of_nonneg_right (sub_le_self _ hcO) hfo
          · intro hub
            apply max_le hub
            exact jsRound_mono (mul_le_mul_of_nonneg_right (le_add_of_nonneg_right hcO) hfo)

set_option maxHeartbeats 40000000 in
/-- Claim C5 counterexample: on a valid, strictly declining 7-day history
the first forecast point has sales clamped to 0 while its unclamped
salesUpper is -300, so sales ≤ salesUpper fails and the upper bound field
is negative, falsifying the claim as stated.  (The instantiated square
root function is only ever applied to 0 on this input, where the residual
standard error vanishes, so the extracted fields match the source for the
real square root as well.) -/
theorem c5_point_bounds_counterexample :
    ((generateSalesForecast (fun _ => 0) (fun _ => 0) 10
        [⟨0, 700, 7⟩, ⟨1, 600, 6⟩, ⟨2, 500, 5⟩, ⟨3, 400, 4⟩, ⟨4, 300, 3⟩, ⟨5, 200, 2⟩,
          ⟨6, 100, 1⟩] .d7).bind
      (fun o => o.forecastData.head?)).map (fun pt => (pt.sales, pt.salesUpper))
      = some (0, -300) ∧ ¬((0 : ℤ) ≤ -300) := by
  constructor
  · have hr7 : List.range 7 = [0,1,2,3,4,5,6] := by decide
    have hr12 : List.range 12 = [0,1,2,3,4,5,6,7,8,9,10,11] := by decide
    have hcnq : ∀ (a : ℚ) (l : List ℚ), (a :: l = []) = False := by intro a l; simp
    have hcnm : ∀ (a : Metrics) (l : List Metrics), (a :: l = []) = False := by
      intro a l
      simp
    have d0 : dowIdx 0 = 4 := by decide
    have d1 : dowIdx 1 = 5 := by decide
    have d2 : dowIdx 2 = 6 := by decide
    have d3 : dowIdx 3 = 0 := by decide
    have d4 : dowIdx 4 = 1 := by decide
    have d5 : dowIdx 5 = 2 := by decide
    have d6 : dowIdx 6 = 3 := by decide
    have e0 : dowIdx 10 = 0 := by decide
    have e1 : dowIdx 11 = 1 := by decide
    have e2 : dowIdx 12 = 2 := by decide
    have e3 : dowIdx 13 = 3 := by decide
    have e4 : dowIdx 14 = 4 := by decide
    have e5 : dowIdx 15 = 5 := by decide
    have e6 : dowIdx 16 = 6 := by decide
    have hm : ∀ d : ℤ, ((fun _ => (0 : Fin 12)) d).val = 0 := fun _ => rfl
    norm_num [generateSalesForecast, handleOutliers, sortByLt, insertLt, calculateSeasonality,
      bucketAcc, calculateConfidenceIntervals, calculateConfidence, calculateVariation,
      calculateSeasonalityStrength, calculateDataConsistency, mkForecastPoint, optionTraverse,
      simpleLinearRegression, predict, jsRound, jsSqrt, jsAdd, jsMul, jsDiv, reduce1,
      getDaysForRange, hr7, hr12, hcnq, hcnm, hm,
      d0, d1, d2, d3, d4, d5, d6, e0, e1, e2, e3, e4, e5, e6,
      List.enum, List.enumFrom, List.zipWith, List.filter, List.sum_cons, List.getD,
      List.zip, max_def, min_def, List.head?]
  · decide

set_option maxHeartbeats 40000000 in
/-- Witness for the corrected C5: on a constant 7-day history every
generated point satisfies the amended bounds; instantiated at the first
generated point, whose six metric fields all equal 5. -/
theorem c5_point_bounds_witness :
    (0 : ℤ) ≤ (5 : ℤ) ∧ (5 : ℤ) ≤ (5 : ℤ) ∧ ((0 : ℤ) ≤ (5 : ℤ) → (5 : ℤ) ≤ (5 : ℤ)) ∧
    (0 : ℤ) ≤ (5 : ℤ) ∧ (5 : ℤ) ≤ (5 : ℤ) ∧ ((0 : ℤ) ≤ (5 : ℤ) → (5 : ℤ) ≤ (5 : ℤ)) := by
  have heval : generateSalesForecast (fun _ => 0) (fun _ => 0) 7
      [⟨0, 5, 5⟩, ⟨1, 5, 5⟩, ⟨2, 5, 5⟩, ⟨3, 5, 5⟩, ⟨4, 5, 5⟩, ⟨5, 5, 5⟩, ⟨6, 5, 5⟩] .d7
      = some ⟨[⟨7, 5, 5, 5, 5, 5, 5, true⟩, ⟨8, 5, 5, 5, 5, 5, 5, true⟩,
          ⟨9, 5, 5, 5, 5, 5, 5, true⟩, ⟨10, 5, 5, 5, 5, 5, 5, true⟩,
          ⟨11, 5, 5, 5, 5, 5, 5, true⟩, ⟨12, 5, 5, 5, 5, 5, 5, true⟩,
          ⟨13, 5, 5, 5, 5, 5, 5, true⟩], 5⟩ := by
    have hr7 : List.range 7 = [0,1,2,3,4,5,6] := by decide
    have hr12 : List.range 12 = [0,1,2,3,4,5,6,7,8,9,10,11] := by decide
    have hcnq : ∀ (a : ℚ) (l : List ℚ), (a :: l = []) = False := by intro a l; simp
    have hcnm : ∀ (a : Metrics) (l : List Metrics), (a :: l = []) = False := by
      intro a l
      simp
    have d0 : dowIdx 0 = 4 := by decide
    have d1 : dowIdx 1 = 5 := by decide
    have d2 : dowIdx 2 = 6 := by decide
    have d3 : dowIdx 3 = 0 := by decide
    have d4 : dowIdx 4 = 1 := by decide
    have d5 : dowIdx 5 = 2 := by decide
    have d6 : dowIdx 6 = 3 := by decide
    have e0 : dowIdx 7 = 4 := by decide
    have e1 : dowIdx 8 = 5 := by decide
    have e2 : dowIdx 9 = 6 := by decide
    have e3 : dowIdx 10 = 0 := by decide
    have e4 : dowIdx 11 = 1 := by decide
    have e5 : dowIdx 12 = 2 := by decide
    have e6 : dowIdx 13 = 3 := by decide
    have hm : ∀ d : ℤ, ((fun _ => (0 : Fin 12)) d).val = 0 := fun _ => rfl
    norm_num [generateSalesForecast, handleOutliers, sortByLt, insertLt, calculateSeasonality,
      bucketAcc, calculateConfidenceIntervals, calculateConfidence, calculateVariation,
      calculateSeasonalityStrength, calculateDataConsistency, mkForecastPoint, optionTraverse,
      simpleLinearRegression, predict, jsRound, jsSqrt, jsAdd, jsMul, jsDiv, reduce1,
      getDaysForRange, hr7, hr12, hcnq, hcnm, hm,
      d0, d1, d2, d3, d4, d5, d6, e0, e1, e2, e3, e4, e5, e6,
      List.enum, List.enumFrom, List.zipWith, List.filter, List.sum_cons, List.getD,
      List.zip, max_def, min_def]
  exact c5_point_bounds (fun _ => 0) (fun _ => 0) 7
    [⟨0, 5, 5⟩, ⟨1, 5, 5⟩, ⟨2, 5, 5⟩, ⟨3, 5, 5⟩, ⟨4, 5, 5⟩, ⟨5, 5, 5⟩, ⟨6, 5, 5⟩] .d7
    ⟨7, 5, 5, 5, 5, 5, 5, true⟩
    (fun q _ => le_refl 0)
    (by intro d hd; fin_cases hd <;> exact ⟨by norm_num, by norm_num⟩)
    (by rw [heval]; simp)
